import Mathlib

/-!
Shallow embedding of the risk classification and reporting engine of
`src/radiation_map_light.py` (dashboard-sensor repository).

Python floats are modelled as exact rationals (ℚ); the NaN produced by
pandas statistics on an empty column is modelled as `none` in `Option ℚ`,
with Python's comparison semantics (`NaN < c` is `False`, and
`min(100, NaN)` keeps its first argument `100` because the comparison
`NaN < 100` is `False`).  Python dicts returned by the risk functions are
modelled as records; the dict lookups keyed by a risk-level string
(`zone_sizes[...]`, `risk_counts[...] += 1`), whose missing key would raise
`KeyError`, are modelled as `Option`-valued lookups.
-/

namespace RadiationMap

/-- The dict returned by `assess_risk_corrected` (lines 45–84):
`level`, `color`, `action`, `description`, all strings in the source. -/
structure RiskAssessment where
  level : String
  color : String
  action : String
  description : String
deriving DecidableEq, Repr

/-- Source function `assess_risk_corrected(radiation_level)` (lines 45–84): an if/elif chain
on `radiation_level` with exclusive upper bounds 0.15, 0.3, 0.5, 1.0 and a
final `else` branch; there is no input validation of any kind. -/
def assess_risk_corrected (radiation_level : ℚ) : RiskAssessment :=
  if radiation_level < 0.15 then
    ⟨"SAFE", "green", "No restrictions needed", "Within natural background range"⟩
  else if radiation_level < 0.3 then
    ⟨"LOW", "yellow", "Monitor regularly", "Slightly above natural background"⟩
  else if radiation_level < 0.5 then
    ⟨"MODERATE", "orange", "Investigate possible sources", "Above normal levels"⟩
  else if radiation_level < 1.0 then
    ⟨"HIGH", "red", "Restrict prolonged access", "Requires attention"⟩
  else
    ⟨"SEVERE", "purple", "Immediate action required", "Emergency situation"⟩

/-- Ordinal rank of the five level names, SAFE < LOW < MODERATE < HIGH < SEVERE. -/
def levelRank (l : String) : ℕ :=
  if l = "SAFE" then 0
  else if l = "LOW" then 1
  else if l = "MODERATE" then 2
  else if l = "HIGH" then 3
  else if l = "SEVERE" then 4
  else 5

/-- Line 100: `hours_to_public_limit = PUBLIC_LIMIT / radiation_level`,
with `PUBLIC_LIMIT = 1000`. -/
def hours_to_public_limit (r : ℚ) : ℚ := 1000 / r

/-- Line 101: `hours_to_worker_limit = WORKER_LIMIT / radiation_level`,
with `WORKER_LIMIT = 20000`. -/
def hours_to_worker_limit (r : ℚ) : ℚ := 20000 / r

/-- Line 104: `days_to_public_limit = hours_to_public_limit / 8`. -/
def days_to_public_limit (r : ℚ) : ℚ := hours_to_public_limit r / 8

/-- Line 105: `days_to_worker_limit = hours_to_worker_limit / 8`. -/
def days_to_worker_limit (r : ℚ) : ℚ := hours_to_worker_limit r / 8

/-- Line 108: `annual_dose_8hr = radiation_level * 8 * 250`. -/
def annual_dose_8hr (r : ℚ) : ℚ := r * 8 * 250

/-- Line 114: `(annual_dose_8hr / PUBLIC_LIMIT) * 100`. -/
def percent_of_public_limit (r : ℚ) : ℚ := annual_dose_8hr r / 1000 * 100

/-- Line 115: `(annual_dose_8hr / WORKER_LIMIT) * 100`. -/
def percent_of_worker_limit (r : ℚ) : ℚ := annual_dose_8hr r / 20000 * 100

/-- Round-half-to-even on ℚ, the rounding Python's `format` applies when a
value is formatted with `:.0f`; `:.1f` is this rounding applied to `10 * x`
(the result below is then the number of tenths). -/
def roundHalfEven (q : ℚ) : ℤ :=
  if q - ⌊q⌋ < 1 / 2 then ⌊q⌋
  else if 1 / 2 < q - ⌊q⌋ then ⌊q⌋ + 1
  else if ⌊q⌋ % 2 = 0 then ⌊q⌋ else ⌊q⌋ + 1

/-- The dict returned by `calculate_exposure_safety` (lines 86–116): either
`{"status": "No radiation detected"}` or five FORMATTED strings.  The
numeric content of each formatted string is modelled: `"Safe for {d:.0f}
days"` by the rounded integer `d`, and `"{p:.1f}%"` by the integer number of
tenths of a percent. -/
inductive ExposureSafety where
  | noRadiation
  | safety (publicSafetyDays workerSafetyDays annualDoseEstimate
            percentPublicTenths percentWorkerTenths : ℤ)
deriving DecidableEq, Repr

/-- Source function `calculate_exposure_safety(radiation_level)` (lines 86–116): the
degenerate dict for `radiation_level <= 0`, else the dict of formatted
strings, whose numeric contents are the exact quantities rounded by the
format specifiers `:.0f` (days, annual dose) and `:.1f` (percentages). -/
def calculate_exposure_safety (r : ℚ) : ExposureSafety :=
  if r ≤ 0 then .noRadiation
  else
    .safety (roundHalfEven (days_to_public_limit r))
      (roundHalfEven (days_to_worker_limit r))
      (roundHalfEven (annual_dose_8hr r))
      (roundHalfEven (percent_of_public_limit r * 10))
      (roundHalfEven (percent_of_worker_limit r * 10))

/-- The fixed dict `zone_sizes` of `add_risk_zones` (lines 314–317); the
subscript `zone_sizes[risk['level']]` (line 318) is `List.lookup`, whose
`none` result models the `KeyError` branch. -/
def zone_sizes : List (String × ℕ) :=
  [("SAFE", 10), ("LOW", 20), ("MODERATE", 30), ("HIGH", 40), ("SEVERE", 50)]

/-- The dict `risk_counts = {'SAFE': 0, 'LOW': 0, 'MODERATE': 0, 'HIGH': 0,
'SEVERE': 0}` (line 458): a record over exactly the five fixed keys. -/
structure RiskCounts where
  safe : ℕ
  low : ℕ
  moderate : ℕ
  high : ℕ
  severe : ℕ
deriving DecidableEq, Repr

/-- Line 463: `risk_counts[l] += 1` increments the field keyed by `l`;
`none` models the `KeyError` raised when `l` is not one of the five keys. -/
def bump (c : RiskCounts) (l : String) : Option RiskCounts :=
  if l = "SAFE" then some { c with safe := c.safe + 1 }
  else if l = "LOW" then some { c with low := c.low + 1 }
  else if l = "MODERATE" then some { c with moderate := c.moderate + 1 }
  else if l = "HIGH" then some { c with high := c.high + 1 }
  else if l = "SEVERE" then some { c with severe := c.severe + 1 }
  else none

/-- The tally loop of `generate_risk_report` (lines 461–463) starting from a
given dict state: for each dose-rate in order, classify it and increment its
level's count; a `KeyError` (impossible level) aborts with `none`. -/
def tallyFrom (c : RiskCounts) : List ℚ → Option RiskCounts
  | [] => some c
  | r :: rest => (bump c (assess_risk_corrected r).level).bind (tallyFrom · rest)

/-- The full tally of lines 458–463, from the all-zero initial dict. -/
def tally (ds : List ℚ) : Option RiskCounts := tallyFrom ⟨0, 0, 0, 0, 0⟩ ds

/-- One entry of the `hotspots` list (lines 466–470): the dict
`{'point': idx + 1, 'radiation': ..., 'risk': ...}`. -/
structure Hotspot where
  point : ℕ
  radiation : ℚ
  risk : String
deriving DecidableEq, Repr

/-- The hotspot collection of lines 459–470: samples (1-based point index
from enumeration order) whose level is in `['MODERATE', 'HIGH', 'SEVERE']`. -/
def hotspotsOf (ds : List ℚ) : List Hotspot :=
  ds.enum.filterMap fun p =>
    let risk := assess_risk_corrected p.2
    if risk.level ∈ (["MODERATE", "HIGH", "SEVERE"] : List String) then
      some ⟨p.1 + 1, p.2, risk.level⟩
    else none

/-- pandas `df['Radiation_μSv_h'].mean()` (line 30): sum divided by count,
NaN (`none`) on an empty column. -/
def dsMean : List ℚ → Option ℚ
  | [] => none
  | x :: xs => some ((x :: xs).sum / (x :: xs).length)

/-- pandas `df['Radiation_μSv_h'].max()` (line 32): the running maximum,
NaN (`none`) on an empty column. -/
def dsMax : List ℚ → Option ℚ
  | [] => none
  | x :: xs => some (xs.foldl max x)

/-- pandas `df['Radiation_μSv_h'].min()` (line 33): the running minimum,
NaN (`none`) on an empty column. -/
def dsMin : List ℚ → Option ℚ
  | [] => none
  | x :: xs => some (xs.foldl min x)

/-- Float multiplication by a constant; NaN propagates. -/
def fMul (a : Option ℚ) (k : ℚ) : Option ℚ := a.map (· * k)

/-- Float addition; NaN propagates. -/
def fAdd : Option ℚ → Option ℚ → Option ℚ
  | some x, some y => some (x + y)
  | _, _ => none

/-- Python `min(a, b)`: returns `b` only when `b < a` is `True`; any
comparison with NaN is `False`, so `min(100, NaN)` keeps `100` while
`min(NaN, x)` keeps NaN. -/
def pyMin (a b : Option ℚ) : Option ℚ :=
  match a, b with
  | none, _ => none
  | some x, none => some x
  | some x, some y => some (if y < x then y else x)

/-- Python `a < c` for a possibly-NaN `a` and a real constant `c`: `False`
whenever `a` is NaN. -/
def fLt (a : Option ℚ) (c : ℚ) : Bool :=
  match a with
  | none => false
  | some x => decide (x < c)

/-- Lines 472–475: `risk_index = min(100, (max_reading * 70) + (mean_reading * 30))`
(lines 472–475), on possibly-NaN statistics. -/
def riskIndexF (mx mean : Option ℚ) : Option ℚ :=
  pyMin (some 100) (fAdd (fMul mx 70) (fMul mean 30))

/-- The overall-risk if/elif chain of lines 477–514: thresholds 30, 50, 70,
90 on `risk_index`, returning the level name and its fixed recommendation
list. -/
def overallRisk (idx : Option ℚ) : String × List String :=
  if fLt idx 30 then
    ("SAFE", ["Continue routine monitoring", "Maintain baseline records",
      "No restrictions needed"])
  else if fLt idx 50 then
    ("LOW", ["Monitor monthly", "Investigate minor elevations",
      "Inform local authorities"])
  else if fLt idx 70 then
    ("MODERATE", ["Increase monitoring to weekly",
      "Restrict prolonged access to elevated areas",
      "Investigate potential sources"])
  else if fLt idx 90 then
    ("HIGH", ["Restrict area access", "Notify radiation safety officer",
      "Begin source investigation", "Implement protective measures"])
  else
    ("SEVERE", ["IMMEDIATE AREA RESTRICTION", "Contact nuclear regulatory body",
      "Deploy emergency response", "Evacuate non-essential personnel"])

/-- The structured content of the report assembled by `generate_risk_report`
(lines 453–584): the computed values that the report string interpolates. -/
structure RiskReport where
  dataPoints : ℕ
  statMean : Option ℚ
  statMax : Option ℚ
  statMin : Option ℚ
  risk_counts : RiskCounts
  hotspots : List Hotspot
  risk_index : Option ℚ
  overall_risk : String
  recommendations : List String
deriving DecidableEq, Repr

/-- Source function `generate_risk_report(radiation_data)` (lines 453–584), on the dose-rate
column of the data.  The function performs no emptiness check; its only
failure mode is the `KeyError` of the tally (propagated as `none`). -/
def generate_risk_report (ds : List ℚ) : Option RiskReport :=
  (tally ds).map fun counts =>
    let mx := dsMax ds
    let mean := dsMean ds
    let idx := riskIndexF mx mean
    let overall := overallRisk idx
    { dataPoints := ds.length
      statMean := mean
      statMax := mx
      statMin := dsMin ds
      risk_counts := counts
      hotspots := hotspotsOf ds
      risk_index := idx
      overall_risk := overall.1
      recommendations := overall.2 }

/-- Source field `RadiationData.data_points` (lines 17–23): the hardcoded sample triples
`[longitude, latitude, radiation_μSv_h]`. -/
def data_points : List (ℚ × ℚ × ℚ) :=
  [(90.35718591116404, 23.837775061102857, 0.4385),
   (90.35789165161599, 23.83827828945288, 0.00),
   (90.35706162131505, 23.838201481146786, 0.00),
   (90.35770007023059, 23.837719225607806, 0.00)]

/-- The dose-rate column `Radiation_μSv_h` of `data_points`. -/
def doseRates : List ℚ := data_points.map fun p => p.2.2

lemma level_eq (r : ℚ) :
    (assess_risk_corrected r).level =
      if r < 0.15 then "SAFE"
      else if r < 0.3 then "LOW"
      else if r < 0.5 then "MODERATE"
      else if r < 1.0 then "HIGH"
      else "SEVERE" := by
  unfold assess_risk_corrected
  split_ifs <;> rfl

lemma level_mem (r : ℚ) :
    (assess_risk_corrected r).level ∈ ["SAFE", "LOW", "MODERATE", "HIGH", "SEVERE"] := by
  rw [level_eq]
  split_ifs <;> decide

lemma rank_eq (r : ℚ) :
    levelRank (assess_risk_corrected r).level =
      if r < 0.15 then 0
      else if r < 0.3 then 1
      else if r < 0.5 then 2
      else if r < 1.0 then 3
      else 4 := by
  rw [level_eq]
  split_ifs <;> rfl

lemma bump_sum_of_mem (c : RiskCounts) (l : String)
    (hl : l ∈ ["SAFE", "LOW", "MODERATE", "HIGH", "SEVERE"]) :
    ∃ c2, bump c l = some c2 ∧
      c2.safe + c2.low + c2.moderate + c2.high + c2.severe
        = c.safe + c.low + c.moderate + c.high + c.severe + 1 := by
  simp only [List.mem_cons, List.not_mem_nil, or_false] at hl
  rcases hl with h | h | h | h | h <;> subst h <;> unfold bump
  · exact ⟨_, if_pos rfl, by simp; omega⟩
  · rw [if_neg (by decide), if_pos rfl]
    exact ⟨_, rfl, by simp; omega⟩
  · rw [if_neg (by decide), if_neg (by decide), if_pos rfl]
    exact ⟨_, rfl, by simp; omega⟩
  · rw [if_neg (by decide), if_neg (by decide), if_neg (by decide), if_pos rfl]
    exact ⟨_, rfl, by simp; omega⟩
  · rw [if_neg (by decide), if_neg (by decide), if_neg (by decide),
      if_neg (by decide), if_pos rfl]
    exact ⟨_, rfl, by simp; omega⟩

lemma bump_isSome_of_mem (c : RiskCounts) (l : String)
    (hl : l ∈ ["SAFE", "LOW", "MODERATE", "HIGH", "SEVERE"]) :
    (bump c l).isSome = true := by
  obtain ⟨c2, h, -⟩ := bump_sum_of_mem c l hl
  rw [h]; rfl

lemma tallyFrom_sum (ds : List ℚ) : ∀ c : RiskCounts,
    ∃ c2, tallyFrom c ds = some c2 ∧
      c2.safe + c2.low + c2.moderate + c2.high + c2.severe
        = c.safe + c.low + c.moderate + c.high + c.severe + ds.length := by
  induction ds with
  | nil => exact fun c => ⟨c, rfl, by simp⟩
  | cons r rest ih =>
    intro c
    obtain ⟨c1, hb, hs⟩ := bump_sum_of_mem c (assess_risk_corrected r).level (level_mem r)
    obtain ⟨c2, ht, hs2⟩ := ih c1
    refine ⟨c2, ?_, ?_⟩
    · simp only [tallyFrom, hb, Option.bind_some]
      exact ht
    · rw [hs2, hs, List.length_cons]
      omega

lemma fLt_some (x c : ℚ) : fLt (some x) c = decide (x < c) := rfl

lemma riskIndexF_some (mx mean : ℚ) :
    riskIndexF (some mx) (some mean) = some (min 100 (mx * 70 + mean * 30)) := by
  have h : riskIndexF (some mx) (some mean)
      = some (if mx * 70 + mean * 30 < 100 then mx * 70 + mean * 30 else 100) := rfl
  rw [h]
  congr 1
  rw [min_def]
  split_ifs <;> first | rfl | linarith

lemma overallRisk_fst (i : ℚ) :
    (overallRisk (some i)).1 =
      if i < 30 then "SAFE"
      else if i < 50 then "LOW"
      else if i < 70 then "MODERATE"
      else if i < 90 then "HIGH"
      else "SEVERE" := by
  unfold overallRisk
  simp only [fLt_some, decide_eq_true_eq]
  split_ifs <;> rfl

lemma overallRisk_low (i : ℚ) (h1 : 30 ≤ i) (h2 : i < 50) :
    overallRisk (some i) =
      ("LOW", ["Monitor monthly", "Investigate minor elevations",
        "Inform local authorities"]) := by
  unfold overallRisk
  simp only [fLt_some, decide_eq_true_eq]
  rw [if_neg (not_lt.mpr h1), if_pos h2]

lemma roundHalfEven_of_lt_half (q : ℚ) (n : ℤ) (hfl : ⌊q⌋ = n)
    (h : q - n < 1 / 2) : roundHalfEven q = n := by
  unfold roundHalfEven
  rw [hfl, if_pos h]

lemma roundHalfEven_of_gt_half (q : ℚ) (n : ℤ) (hfl : ⌊q⌋ = n)
    (h : 1 / 2 < q - n) : roundHalfEven q = n + 1 := by
  unfold roundHalfEven
  rw [hfl, if_neg (by linarith), if_pos h]

/-- Claim C1: for every doseRate in [0, ∞), `assess_risk_corrected` returns
the level and action of the 4.1 table, with exclusive upper bounds 0.15,
0.3, 0.5, 1.0 evaluated in ascending order, first match winning. -/
theorem C1_classify_table (r : ℚ) (h : 0 ≤ r) :
    (r < 0.15 → (assess_risk_corrected r).level = "SAFE" ∧
      (assess_risk_corrected r).action = "No restrictions needed") ∧
    (0.15 ≤ r → r < 0.3 → (assess_risk_corrected r).level = "LOW" ∧
      (assess_risk_corrected r).action = "Monitor regularly") ∧
    (0.3 ≤ r → r < 0.5 → (assess_risk_corrected r).level = "MODERATE" ∧
      (assess_risk_corrected r).action = "Investigate possible sources") ∧
    (0.5 ≤ r → r < 1.0 → (assess_risk_corrected r).level = "HIGH" ∧
      (assess_risk_corrected r).action = "Restrict prolonged access") ∧
    (1.0 ≤ r → (assess_risk_corrected r).level = "SEVERE" ∧
      (assess_risk_corrected r).action = "Immediate action required") := by
  unfold assess_risk_corrected
  refine ⟨fun h1 => ?_, fun h1 h2 => ?_, fun h1 h2 => ?_, fun h1 h2 => ?_, fun h1 => ?_⟩ <;>
    split_ifs <;> first | exact ⟨rfl, rfl⟩ | linarith

/-- Witness for C1 at the boundary points named by the claim: 0.15 is LOW,
0.14999 is SAFE, 0.3 is MODERATE, 1.0 is SEVERE. -/
theorem C1_classify_table_witness :
    (0 : ℚ) ≤ 0.15 ∧
    (assess_risk_corrected 0.15).level = "LOW" ∧
    (assess_risk_corrected 0.14999).level = "SAFE" ∧
    (assess_risk_corrected 0.3).level = "MODERATE" ∧
    (assess_risk_corrected 1.0).level = "SEVERE" :=
  ⟨by norm_num,
   ((C1_classify_table 0.15 (by norm_num)).2.1 (by norm_num) (by norm_num)).1,
   ((C1_classify_table 0.14999 (by norm_num)).1 (by norm_num)).1,
   ((C1_classify_table 0.3 (by norm_num)).2.2.1 (by norm_num) (by norm_num)).1,
   ((C1_classify_table 1.0 (by norm_num)).2.2.2.2 (by norm_num)).1⟩

/-- Counterexample to claim C2: a negative doseRate is not rejected; the
code returns the full SAFE classification for doseRate = -1. -/
theorem C2_negative_not_rejected :
    assess_risk_corrected (-1) =
      ⟨"SAFE", "green", "No restrictions needed", "Within natural background range"⟩ := by
  unfold assess_risk_corrected
  rw [if_pos (show (-1 : ℚ) < 0.15 by norm_num)]

/-- Claim C2 as amended: `assess_risk_corrected` has no input validation;
every negative doseRate falls into the first branch (`< 0.15`) and is
returned classified SAFE — no InvalidInput failure exists. -/
theorem C2_amended_negative_safe (r : ℚ) (h : r < 0) :
    assess_risk_corrected r =
      ⟨"SAFE", "green", "No restrictions needed", "Within natural background range"⟩ := by
  unfold assess_risk_corrected
  rw [if_pos (show r < 0.15 by linarith)]

/-- Witness for the amended C2 at doseRate = -2. -/
theorem C2_amended_negative_safe_witness :
    (-2 : ℚ) < 0 ∧
      assess_risk_corrected (-2) =
        ⟨"SAFE", "green", "No restrictions needed", "Within natural background range"⟩ :=
  ⟨by norm_num, C2_amended_negative_safe (-2) (by norm_num)⟩

/-- Counterexample to claim C3: report generation on the empty dataset does
not fail — it returns a report object. -/
theorem C3_empty_dataset_reports : (generate_risk_report []).isSome = true := by
  decide

/-- Claim C3 as amended: `generate_risk_report` performs no emptiness check;
on zero samples the statistics are NaN, `min(100, NaN)` leaves the risk
index at 100, every NaN threshold comparison is false, and a complete
report with overall level SEVERE is returned — no EmptyDataset error
exists. -/
theorem C3_amended_empty_report :
    generate_risk_report [] = some
      { dataPoints := 0
        statMean := none
        statMax := none
        statMin := none
        risk_counts := ⟨0, 0, 0, 0, 0⟩
        hotspots := []
        risk_index := some 100
        overall_risk := "SEVERE"
        recommendations := ["IMMEDIATE AREA RESTRICTION",
          "Contact nuclear regulatory body", "Deploy emergency response",
          "Evacuate non-essential personnel"] } := by
  decide

/-- Counterexample to claim C4: the returned quantities are formatted
strings, altered by rounding — at doseRate = 3 the stored days-to-public
figure is 42, not the exact (1000/3)/8 = 125/3. -/
theorem C4_formatting_rounds_values :
    calculate_exposure_safety 3 = .safety 42 833 6000 6000 300 ∧
      (42 : ℚ) ≠ days_to_public_limit 3 := by
  have e1 : days_to_public_limit 3 = 125 / 3 := by
    unfold days_to_public_limit hours_to_public_limit; norm_num
  have e2 : days_to_worker_limit 3 = 2500 / 3 := by
    unfold days_to_worker_limit hours_to_worker_limit; norm_num
  have e3 : annual_dose_8hr 3 = 6000 := by unfold annual_dose_8hr; norm_num
  have e4 : percent_of_public_limit 3 * 10 = 6000 := by
    unfold percent_of_public_limit annual_dose_8hr; norm_num
  have e5 : percent_of_worker_limit 3 * 10 = 300 := by
    unfold percent_of_worker_limit annual_dose_8hr; norm_num
  constructor
  · unfold calculate_exposure_safety
    rw [if_neg (by norm_num), e1, e2, e3, e4, e5,
      roundHalfEven_of_gt_half (125 / 3) 41 (by rw [Int.floor_eq_iff]; norm_num)
        (by norm_num),
      roundHalfEven_of_lt_half (2500 / 3) 833 (by rw [Int.floor_eq_iff]; norm_num)
        (by norm_num),
      roundHalfEven_of_lt_half 6000 6000 (by rw [Int.floor_eq_iff]; norm_num)
        (by norm_num),
      roundHalfEven_of_lt_half 300 300 (by rw [Int.floor_eq_iff]; norm_num)
        (by norm_num)]
    norm_num
  · rw [e1]; norm_num

/-- Claim C4 as amended: for doseRate ≤ 0 the degenerate variant is
returned; for doseRate > 0 the underlying computed quantities obey the
reference formulas and the 20× limit ratio, but the function returns them
rounded by the format specifiers (`:.0f` for days and annual dose, `:.1f`
for percentages), so the stored values are altered by rounding. -/
theorem C4_amended_exposure (r : ℚ) :
    (r ≤ 0 → calculate_exposure_safety r = .noRadiation) ∧
    (0 < r →
      calculate_exposure_safety r =
        .safety (roundHalfEven (days_to_public_limit r))
          (roundHalfEven (days_to_worker_limit r))
          (roundHalfEven (annual_dose_8hr r))
          (roundHalfEven (percent_of_public_limit r * 10))
          (roundHalfEven (percent_of_worker_limit r * 10)) ∧
      days_to_public_limit r = 1000 / r / 8 ∧
      days_to_worker_limit r = 20000 / r / 8 ∧
      annual_dose_8hr r = r * 8 * 250 ∧
      percent_of_public_limit r = annual_dose_8hr r / 1000 * 100 ∧
      percent_of_worker_limit r = annual_dose_8hr r / 20000 * 100 ∧
      percent_of_public_limit r = 20 * percent_of_worker_limit r) := by
  constructor
  · intro h
    unfold calculate_exposure_safety
    rw [if_pos h]
  · intro h
    refine ⟨?_, rfl, rfl, rfl, rfl, rfl, ?_⟩
    · unfold calculate_exposure_safety
      rw [if_neg (not_le.mpr h)]
    · unfold percent_of_public_limit percent_of_worker_limit annual_dose_8hr
      ring

/-- Witness for the amended C4: the degenerate variant at -1, and the 20×
ratio at doseRate = 2. -/
theorem C4_amended_exposure_witness :
    ((-1 : ℚ) ≤ 0 ∧ calculate_exposure_safety (-1) = .noRadiation) ∧
    ((0 : ℚ) < 2 ∧ percent_of_public_limit 2 = 20 * percent_of_worker_limit 2) :=
  ⟨⟨by norm_num, (C4_amended_exposure (-1)).1 (by norm_num)⟩,
   ⟨by norm_num, ((C4_amended_exposure 2).2 (by norm_num)).2.2.2.2.2.2⟩⟩

/-- Claim C5: for any defined (non-NaN) max and mean statistics, the risk
index is min(100, max·70 + mean·30) and the overall level follows the
aggregate thresholds 30, 50, 70, 90. -/
theorem C5_aggregate_index_level (mx mean : ℚ) :
    riskIndexF (some mx) (some mean) = some (min 100 (mx * 70 + mean * 30)) ∧
    (min 100 (mx * 70 + mean * 30) < 30 →
      (overallRisk (riskIndexF (some mx) (some mean))).1 = "SAFE") ∧
    (30 ≤ min 100 (mx * 70 + mean * 30) → min 100 (mx * 70 + mean * 30) < 50 →
      (overallRisk (riskIndexF (some mx) (some mean))).1 = "LOW") ∧
    (50 ≤ min 100 (mx * 70 + mean * 30) → min 100 (mx * 70 + mean * 30) < 70 →
      (overallRisk (riskIndexF (some mx) (some mean))).1 = "MODERATE") ∧
    (70 ≤ min 100 (mx * 70 + mean * 30) → min 100 (mx * 70 + mean * 30) < 90 →
      (overallRisk (riskIndexF (some mx) (some mean))).1 = "HIGH") ∧
    (90 ≤ min 100 (mx * 70 + mean * 30) →
      (overallRisk (riskIndexF (some mx) (some mean))).1 = "SEVERE") := by
  have hidx := riskIndexF_some mx mean
  refine ⟨hidx, ?_, ?_, ?_, ?_, ?_⟩ <;> rw [hidx, overallRisk_fst] <;> intros <;>
    split_ifs <;> first | rfl | linarith

/-- Witness for C5 at max = 0.2, mean = 0.1: index 17, level SAFE. -/
theorem C5_aggregate_index_level_witness :
    riskIndexF (some 0.2) (some 0.1) = some (min 100 (0.2 * 70 + 0.1 * 30)) ∧
    min (100 : ℚ) (0.2 * 70 + 0.1 * 30) < 30 ∧
    (overallRisk (riskIndexF (some 0.2) (some 0.1))).1 = "SAFE" :=
  ⟨(C5_aggregate_index_level 0.2 0.1).1,
   by rw [min_def]; norm_num,
   (C5_aggregate_index_level 0.2 0.1).2.1 (by rw [min_def]; norm_num)⟩

/-- Claim C6: the end-to-end scenario on the hardcoded four-sample dataset:
mean 0.109625, max 0.4385, min 0; point 1 MODERATE, points 2–4 SAFE; one
hotspot (point 1); index min(100, 0.4385·70 + 0.109625·30) = 33.98375;
overall level LOW. -/
theorem C6_end_to_end :
    dsMean doseRates = some 0.109625 ∧
    dsMax doseRates = some 0.4385 ∧
    dsMin doseRates = some 0 ∧
    (assess_risk_corrected 0.4385).level = "MODERATE" ∧
    (assess_risk_corrected 0).level = "SAFE" ∧
    generate_risk_report doseRates = some
      { dataPoints := 4
        statMean := some 0.109625
        statMax := some 0.4385
        statMin := some 0
        risk_counts := ⟨3, 0, 1, 0, 0⟩
        hotspots := [⟨1, 0.4385, "MODERATE"⟩]
        risk_index := some (min 100 (0.4385 * 70 + 0.109625 * 30))
        overall_risk := "LOW"
        recommendations := ["Monitor monthly", "Investigate minor elevations",
          "Inform local authorities"] } ∧
    min (100 : ℚ) (0.4385 * 70 + 0.109625 * 30) = 33.98375 := by
  have hds : doseRates = [0.4385, 0, 0, 0] := by
    simp only [doseRates, data_points, List.map]
    norm_num
  have l1 : (assess_risk_corrected 0.4385).level = "MODERATE" := by
    rw [level_eq]; norm_num
  have l2 : (assess_risk_corrected 0).level = "SAFE" := by
    rw [level_eq]; norm_num
  have hmean : dsMean [0.4385, 0, 0, 0] = some 0.109625 := by
    simp only [dsMean, List.sum_cons, List.sum_nil, List.length_cons, List.length_nil]
    norm_num
  have hmax : dsMax [0.4385, 0, 0, 0] = some 0.4385 := by
    simp only [dsMax, List.foldl]
    norm_num [max_def]
  have hmin : dsMin [0.4385, 0, 0, 0] = some 0 := by
    simp only [dsMin, List.foldl]
    norm_num [min_def]
  have htally : tally [0.4385, 0, 0, 0] = some ⟨3, 0, 1, 0, 0⟩ := by
    simp only [tally, tallyFrom, l1, l2]
    decide
  have hhot : hotspotsOf [0.4385, 0, 0, 0] = [⟨1, 0.4385, "MODERATE"⟩] := by
    simp [hotspotsOf, List.enum, List.enumFrom, l1, l2]
  have hminval : min (100 : ℚ) (0.4385 * 70 + 0.109625 * 30) = 33.98375 := by
    rw [min_def]; norm_num
  have hidx : riskIndexF (some 0.4385) (some 0.109625)
      = some (min 100 (0.4385 * 70 + 0.109625 * 30)) :=
    riskIndexF_some _ _
  have hovp : overallRisk (some (min (100 : ℚ) (0.4385 * 70 + 0.109625 * 30)))
      = ("LOW", ["Monitor monthly", "Investigate minor elevations",
          "Inform local authorities"]) := by
    rw [hminval]
    exact overallRisk_low _ (by norm_num) (by norm_num)
  rw [hds]
  refine ⟨hmean, hmax, hmin, l1, l2, ?_, hminval⟩
  simp only [generate_risk_report, htally, Option.map_some', hmean, hmax, hmin,
    hidx, hovp, hhot, Option.some.injEq, List.length_cons, List.length_nil]

/-- Claim C7: classification is monotone in dose-rate — for 0 ≤ a < b the
ordinal rank of the level at a is at most the rank at b. -/
theorem C7_classify_monotone (a b : ℚ) (h0 : 0 ≤ a) (hab : a < b) :
    levelRank (assess_risk_corrected a).level ≤
      levelRank (assess_risk_corrected b).level := by
  rw [rank_eq, rank_eq]
  split_ifs <;> first | omega | linarith

/-- Witness for C7 at a = 0, b = 1. -/
theorem C7_classify_monotone_witness :
    (0 : ℚ) ≤ 0 ∧ (0 : ℚ) < 1 ∧
      levelRank (assess_risk_corrected 0).level ≤
        levelRank (assess_risk_corrected 1).level :=
  ⟨le_refl 0, by norm_num, C7_classify_monotone 0 1 (le_refl 0) (by norm_num)⟩

/-- Counterexample to claim C8: the statistics of the (unvalidated) dataset
[-2] are max = mean = -2, and the risk index they give is -200, violating
the lower bound 0. -/
theorem C8_negative_stats_negative_index :
    dsMax [(-2 : ℚ)] = some (-2) ∧
    dsMean [(-2 : ℚ)] = some (-2) ∧
    riskIndexF (dsMax [(-2 : ℚ)]) (dsMean [(-2 : ℚ)]) = some (-200) ∧
    ¬ ((0 : ℚ) ≤ -200) := by
  have hmax : dsMax [(-2 : ℚ)] = some (-2) := by
    simp [dsMax]
  have hmean : dsMean [(-2 : ℚ)] = some (-2) := by
    simp only [dsMean, List.sum_cons, List.sum_nil, List.length_cons, List.length_nil]
    norm_num
  refine ⟨hmax, hmean, ?_, by norm_num⟩
  rw [hmax, hmean, riskIndexF_some]
  rw [min_def]
  norm_num

/-- Claim C8 as amended: for statistics with non-negative max and mean (as
produced by any dataset of non-negative dose-rates), the risk index lies in
[0, 100]; the upper bound alone holds for all statistics. -/
theorem C8_amended_index_bounds (mx mean : ℚ) (hmx : 0 ≤ mx) (hmean : 0 ≤ mean) :
    ∃ i, riskIndexF (some mx) (some mean) = some i ∧ 0 ≤ i ∧ i ≤ 100 :=
  ⟨min 100 (mx * 70 + mean * 30), riskIndexF_some mx mean,
   le_min (by norm_num) (by positivity), min_le_left _ _⟩

/-- Witness for the amended C8 at max = 0.2, mean = 0.1. -/
theorem C8_amended_index_bounds_witness :
    (0 : ℚ) ≤ 0.2 ∧ (0 : ℚ) ≤ 0.1 ∧
      ∃ i, riskIndexF (some 0.2) (some 0.1) = some i ∧ 0 ≤ i ∧ i ≤ 100 :=
  ⟨by norm_num, by norm_num,
   C8_amended_index_bounds 0.2 0.1 (by norm_num) (by norm_num)⟩

/-- Claim C9: for every non-empty dataset the tally over the fixed
five-key distribution succeeds and its five counts sum to the sample
count. -/
theorem C9_distribution_sum (ds : List ℚ) (h : ds ≠ []) :
    ∃ c, tally ds = some c ∧
      c.safe + c.low + c.moderate + c.high + c.severe = ds.length := by
  obtain ⟨c2, ht, hs⟩ := tallyFrom_sum ds ⟨0, 0, 0, 0, 0⟩
  exact ⟨c2, ht, by simpa using hs⟩

/-- Witness for C9 on the singleton dataset [0.2]. -/
theorem C9_distribution_sum_witness :
    ([(0.2 : ℚ)] ≠ []) ∧
      ∃ c, tally [(0.2 : ℚ)] = some c ∧
        c.safe + c.low + c.moderate + c.high + c.severe = [(0.2 : ℚ)].length :=
  ⟨by simp, C9_distribution_sum [(0.2 : ℚ)] (by simp)⟩

/-- Claim C10: for every input (negative included), classification returns
one of exactly the five fixed records, so both level-keyed lookups — the
`zone_sizes` dict and the `risk_counts` tally — are total and their
missing-key (KeyError) branches are unreachable. -/
theorem C10_classify_totality (r : ℚ) :
    assess_risk_corrected r ∈
      [(⟨"SAFE", "green", "No restrictions needed",
          "Within natural background range"⟩ : RiskAssessment),
       ⟨"LOW", "yellow", "Monitor regularly", "Slightly above natural background"⟩,
       ⟨"MODERATE", "orange", "Investigate possible sources", "Above normal levels"⟩,
       ⟨"HIGH", "red", "Restrict prolonged access", "Requires attention"⟩,
       ⟨"SEVERE", "purple", "Immediate action required", "Emergency situation"⟩] ∧
    (zone_sizes.lookup (assess_risk_corrected r).level).isSome = true ∧
    ∀ c : RiskCounts, (bump c (assess_risk_corrected r).level).isSome = true := by
  refine ⟨?_, ?_, fun c => bump_isSome_of_mem c _ (level_mem r)⟩
  · unfold assess_risk_corrected
    split_ifs <;> decide
  · have hl := level_mem r
    simp only [List.mem_cons, List.not_mem_nil, or_false] at hl
    rcases hl with h | h | h | h | h <;> rw [h] <;> decide

end RadiationMap
